import Mathlib

/-!
Verification development for the erica relay server.

The repository is a Node/Express server with six near-duplicate variants of
the same program.  We embed the variant in src/unnamed/part_000 (the fullest
one: it has the system-TTS fallback, the voice trimming logic and the full
live relay), and note where the variants drift when it matters.

Two parts are embedded:

1. The WebSocket relay session (the "wss.on(connection)" closure): per
   connection the code keeps a mutable variable "liveSessionPromise" holding
   either null or a promise for a backend live session.  We model promises
   explicitly: a backend connect attempt is an entry in a list, each entry
   recording whether the promise has resolved (backend open), the callbacks
   queued on it while pending (sendRealtimeInput / close thens), and whether
   close() has been invoked on the resolved session.  The message handler and
   the SDK callbacks become a step function on a World; observable side
   effects (ws.send, ai.live.connect, sendRealtimeInput, session.close,
   ws.close) are recorded in a trace.

2. The POST /api/generate-tts handler of part_000, as a pure function of the
   request body and of an environment fixing the platform predicate and the
   outcomes of the single primary attempt and the single local attempt.

Promise rejection (a backend connect that fails asynchronously) is not
modelled; none of the properties below depend on it, and a rejected promise
never runs its then-callbacks, so it forwards nothing and closes nothing.
-/

/-- Outbound envelope kinds the server sends on the client WebSocket. -/
inductive Envelope
  | connected
  | disconnected
  | relayEvent (payload : String)
  | error (msg : String)
deriving DecidableEq, Repr

/-- Observable side effects of the relay code, in program order.
"backendConnect id" is a call to ai.live.connect (attempt number id),
"backendSend id f" a session.sendRealtimeInput carrying frame f,
"backendClose id" a session.close(), "wsClose" a ws.close() call and
"wsSend e" a ws.send of envelope e. -/
inductive Effect
  | wsSend (e : Envelope)
  | backendConnect (id : Nat)
  | backendSend (id : Nat) (frame : String)
  | backendClose (id : Nat)
  | wsClose
deriving DecidableEq, Repr

/-- One backend connect attempt: the promise returned by ai.live.connect
together with the session it resolves to.  "opened" records that the onopen
callback fired (the promise resolved); "queuedSends" and "queuedClose" are
the then-callbacks registered while the promise was still pending;
"closeCalled" records that close() ran on the resolved session. -/
structure Backend where
  opened : Bool
  queuedSends : List String
  queuedClose : Bool
  closeCalled : Bool
deriving DecidableEq, Repr

/-- State of one connection closure plus its backend attempts.
"live" is the mutable liveSessionPromise variable (an index into backends,
or none for null); "wsClosed" is whether the client transport is closed;
"trace" accumulates the observable side effects. -/
structure World where
  backends : List Backend
  live : Option Nat
  wsClosed : Bool
  trace : List Effect
deriving DecidableEq, Repr

/-- The empty connection state right after wss.on(connection) runs:
liveSessionPromise is null, no backend attempt exists, transport open. -/
def init : World := ⟨[], none, false, []⟩

/-- Events driving one connection: the three client message types, the SDK
callbacks for a given backend attempt, and the close of the client
transport.  For a connect message, apiKey = none models an absent config
field and some "" an empty string; both are falsy in the JS guard. -/
inductive Event
  | clientConnect (apiKey : Option String)
  | clientAudio (frame : String)
  | clientDisconnect
  | backendOpen (id : Nat)
  | backendEvent (id : Nat) (payload : String)
  | backendClosed (id : Nat)
  | transportClose
deriving DecidableEq, Repr

/-- A fresh pending backend attempt (the promise just returned). -/
def freshBackend : Backend := ⟨false, [], false, false⟩

/-- One step of the connection: the ws message handler for client events,
the ai.live.connect callbacks for backend events, and the ws close handler
for transportClose.  Transcribed from the wss.on(connection) closure of
src/unnamed/part_000 (identically src/server.js, first and second variants):

- clientConnect: "if (!apiKey) { ws.send(error); return; }" else
  "liveSessionPromise = ai.live.connect(...)" — the variable is overwritten;
  nothing closes a previously held attempt.
- clientAudio: "if (liveSessionPromise) liveSessionPromise.then(s =>
  s.sendRealtimeInput(...))" — a then on a resolved promise runs at once
  (microtask), on a pending one it is queued until resolution; with a null
  variable the frame is dropped with no effect.
- clientDisconnect: "if (liveSessionPromise) { liveSessionPromise.then(s =>
  s.close()); liveSessionPromise = null; } ws.close();" — the close() on an
  already resolved promise runs as a microtask after ws.close().
- backendOpen: the onopen callback sends the connected envelope; resolving
  the promise runs the queued then-callbacks in registration order.
- backendEvent: the onmessage callback relays the payload unchanged.
- backendClosed: the onclose callback sends the disconnected envelope.
- transportClose: the ws close handler only logs; it touches neither the
  variable nor any backend attempt.
-/
def step (w : World) : Event → World
  | .clientConnect apiKey =>
      if apiKey.getD "" = "" then
        { w with trace := w.trace ++ [.wsSend (.error "Missing API key")] }
      else
        { w with
            backends := w.backends ++ [freshBackend]
            live := some w.backends.length
            trace := w.trace ++ [.backendConnect w.backends.length] }
  | .clientAudio f =>
      match w.live with
      | none => w
      | some id =>
        match w.backends[id]? with
        | none => w
        | some b =>
          if b.opened then
            { w with trace := w.trace ++ [.backendSend id f] }
          else
            { w with backends :=
                w.backends.set id { b with queuedSends := b.queuedSends ++ [f] } }
  | .clientDisconnect =>
      match w.live with
      | none => { w with wsClosed := true, trace := w.trace ++ [.wsClose] }
      | some id =>
        match w.backends[id]? with
        | none =>
            { w with live := none, wsClosed := true, trace := w.trace ++ [.wsClose] }
        | some b =>
          if b.opened then
            { w with
                live := none
                wsClosed := true
                backends := w.backends.set id { b with closeCalled := true }
                trace := w.trace ++ [.wsClose, .backendClose id] }
          else
            { w with
                live := none
                wsClosed := true
                backends := w.backends.set id { b with queuedClose := true }
                trace := w.trace ++ [.wsClose] }
  | .backendOpen id =>
      match w.backends[id]? with
      | none => w
      | some b =>
        if b.opened then w
        else
          { w with
              backends := w.backends.set id
                { b with
                    opened := true
                    queuedSends := []
                    queuedClose := false
                    closeCalled := b.closeCalled || b.queuedClose }
              trace := w.trace ++ [.wsSend .connected]
                ++ b.queuedSends.map (fun f => Effect.backendSend id f)
                ++ (if b.queuedClose then [Effect.backendClose id] else []) }
  | .backendEvent id payload =>
      match w.backends[id]? with
      | none => w
      | some b =>
        if b.opened then
          { w with trace := w.trace ++ [.wsSend (.relayEvent payload)] }
        else w
  | .backendClosed id =>
      match w.backends[id]? with
      | none => w
      | some b =>
        if b.opened then
          { w with trace := w.trace ++ [.wsSend .disconnected] }
        else w
  | .transportClose =>
      { w with wsClosed := true }

/-- Run a sequence of events from a starting world. -/
def runTrace (w : World) (es : List Event) : World := es.foldl step w

/-- A backend attempt is live while our side has not called close() on it:
it is either still pending or an open session we own. -/
def Backend.isLive (b : Backend) : Bool := !b.closeCalled

/-- Number of live backend handles held by this connection. -/
def countLive (bs : List Backend) : Nat := (bs.filter Backend.isLive).length

/-- Number of session.close() calls recorded in a trace. -/
def closesIn (t : List Effect) : Nat :=
  (t.filter fun e => match e with | .backendClose _ => true | _ => false).length

/-- Number of error envelopes sent in a trace. -/
def errorsIn (t : List Effect) : Nat :=
  (t.filter fun e => match e with | .wsSend (.error _) => true | _ => false).length

/-- Effects a step appended beyond an initial trace. -/
def newEffects (w w' : World) : List Effect := w'.trace.drop w.trace.length

/-- Own properties of the voiceMap object literal in generateSystemTTS of
src/unnamed/part_000 (abstract Gemini voice name to macOS system voice).
The variant in src/server.js lacks the Orion row but is otherwise
identical. -/
def voiceMapOwn (v : String) : Option String :=
  if v = "Aoede" then some "Samantha"
  else if v = "Charon" then some "Alex"
  else if v = "Fenrir" then some "Bruce"
  else if v = "Kore" then some "Karen"
  else if v = "Puck" then some "Daniel"
  else if v = "Orion" then some "Alex"
  else none

/-- Property names a plain object literal inherits from Object.prototype in
Node.  Bracket access voiceMap[name] on any of these returns a truthy value
(a function bound on Object.prototype, or for the proto accessor the
prototype object itself) even though the name is not an own entry of the
table. -/
def objectProtoKeys : List String :=
  ["constructor", "hasOwnProperty", "isPrototypeOf", "propertyIsEnumerable",
   "toLocaleString", "toString", "valueOf", "__proto__",
   "__defineGetter__", "__defineSetter__", "__lookupGetter__", "__lookupSetter__"]

/-- Value of the JS expression voiceMap[voice] || Karen: a string (an own
table value, or the Karen default on a true miss), or the truthy member
inherited from Object.prototype, which the falsy-or keeps as it is. -/
inductive SystemVoice
  | voice (s : String)
  | inheritedMember (name : String)
deriving DecidableEq, Repr

/-- The JS lookup "voiceMap[voice] || Karen" as the program performs it:
bracket access consults the prototype chain, so an own entry wins, a name
inherited from Object.prototype yields that truthy inherited member and
bypasses the default, and only a true miss (undefined, falsy) falls back
to Karen.  Pure, no side effects. -/
def resolve (v : String) : SystemVoice :=
  match voiceMapOwn v with
  | some s => SystemVoice.voice s
  | none =>
      if objectProtoKeys.contains v then SystemVoice.inheritedMember v
      else SystemVoice.voice "Karen"

/-- Outcome of the single primary synthesis attempt
(ai.models.generateContent): the inlineData audio payload with its mime
type, or a thrown failure carrying its description.  An ok outcome with
empty data models a response with no inlineData, where the handler falls
back to the empty string. -/
inductive PrimaryOutcome
  | ok (audioBase64 : String) (mimeType : String)
  | fail (msg : String)
deriving DecidableEq, Repr

/-- Outcome of the single local attempt (generateSystemTTS): the base64 of
the produced aiff file, or the rejection description. -/
inductive LocalOutcome
  | ok (audioBase64 : String)
  | fail (msg : String)
deriving DecidableEq, Repr

/-- Host environment of one request: the fixed platform predicate
(process.platform === "darwin") and the outcomes the two providers would
return if called. -/
structure TtsEnv where
  darwin : Bool
  primary : PrimaryOutcome
  localTts : LocalOutcome
deriving DecidableEq, Repr

/-- Body of a POST /api/generate-tts request.  none models an absent
(undefined) field; fields present with empty strings are some "". -/
structure TtsRequest where
  text : Option String
  voice : Option String
  apiKey : Option String
deriving DecidableEq, Repr

/-- Result of the handler: HTTP status, the error/details fields of a JSON
error body, the audio fields of a success body, plus instrumentation the
spec asks to be observable: whether the primary network attempt was made
and how many local attempts ran, and the system voice the local tier used. -/
structure TtsResult where
  status : Nat
  error : Option String
  details : Option String
  audioBase64 : Option String
  audioMimeType : Option String
  primaryAttempted : Bool
  localAttempts : Nat
  localVoice : Option SystemVoice
deriving DecidableEq, Repr

/-- How JS String(e) renders a thrown Error carrying message m. -/
def jsErrorString (m : String) : String := "Error: " ++ m

/-- The JS String.prototype.trim call on the voice field, as a character
level function (strip leading and trailing whitespace; the voice names the
code handles are ASCII). -/
def jsTrim (s : String) : String :=
  ⟨((s.data.dropWhile Char.isWhitespace).reverse.dropWhile Char.isWhitespace).reverse⟩

/-- Description of the TypeError Node raises when text.substring is
evaluated with text undefined (the console.log line of the handler runs
before the missing-text check).  The exact runtime wording is irrelevant to
the properties below; only that the handler reaches the outer catch. -/
def undefinedSubstringError : String :=
  "TypeError: Cannot read properties of undefined (reading substring)"

/-- The catch (geminiError) block of the handler: on a non-darwin host
rethrow the primary failure to the outer catch (HTTP 500 carrying
String(geminiError)); on darwin make the single generateSystemTTS attempt
with the resolved system voice, answering 200 with audio/aiff on success
and reaching the outer catch with only the local rejection on failure. -/
def fallbackAfter (env : TtsEnv) (geminiError : String) (voice : String) : TtsResult :=
  if env.darwin then
    match env.localTts with
    | .ok audio =>
        { status := 200, error := none, details := none
          audioBase64 := some audio, audioMimeType := some "audio/aiff"
          primaryAttempted := true, localAttempts := 1
          localVoice := some (resolve voice) }
    | .fail lm =>
        { status := 500, error := some "Failed to generate TTS"
          details := some (jsErrorString lm)
          audioBase64 := none, audioMimeType := none
          primaryAttempted := true, localAttempts := 1
          localVoice := some (resolve voice) }
  else
    { status := 500, error := some "Failed to generate TTS"
      details := some (jsErrorString geminiError)
      audioBase64 := none, audioMimeType := none
      primaryAttempted := true, localAttempts := 0, localVoice := none }

/-- The POST /api/generate-tts handler of src/unnamed/part_000 as a pure
function of the request body and the host environment.  Faithful order of
operations:

1. destructure with default voice Puck, then normalize the voice
   ("voiceRaw.trim() || Puck");
2. the debug console.log interpolates text.substring(0, 50): with text
   undefined this throws TypeError, landing in the outer catch, so the
   response is 500 Failed to generate TTS before any validation runs;
3. "if (!text)" answers 400 Missing text (reachable only for text = "");
4. "if (!apiKey)" answers 400 Missing Gemini API key;
5. the primary generateContent attempt: nonempty audio answers 200 with the
   audio and its mime type; empty audio throws No audio data from Gemini
   into the same catch as a primary failure; a failure enters
   fallbackAfter. -/
def generateTts (env : TtsEnv) (req : TtsRequest) : TtsResult :=
  let voice := match req.voice with
    | none => "Puck"
    | some s => if jsTrim s = "" then "Puck" else jsTrim s
  match req.text with
  | none =>
      { status := 500, error := some "Failed to generate TTS"
        details := some undefinedSubstringError
        audioBase64 := none, audioMimeType := none
        primaryAttempted := false, localAttempts := 0, localVoice := none }
  | some t =>
      if t = "" then
        { status := 400, error := some "Missing text in request body"
          details := none, audioBase64 := none, audioMimeType := none
          primaryAttempted := false, localAttempts := 0, localVoice := none }
      else if req.apiKey.getD "" = "" then
        { status := 400, error := some "Missing Gemini API key"
          details := none, audioBase64 := none, audioMimeType := none
          primaryAttempted := false, localAttempts := 0, localVoice := none }
      else
        match env.primary with
        | .ok data mime =>
            if data = "" then
              fallbackAfter env "No audio data from Gemini" voice
            else
              { status := 200, error := none, details := none
                audioBase64 := some data, audioMimeType := some mime
                primaryAttempted := true, localAttempts := 0, localVoice := none }
        | .fail m => fallbackAfter env m voice

/-- Helper: every branch of the disconnect handler nulls the
liveSessionPromise variable. -/
theorem disc_clears_live (w : World) : (step w Event.clientDisconnect).live = none := by
  unfold step
  rcases h : w.live with _ | id
  · simp only [h]
  · simp only [h]
    rcases hb : w.backends[id]? with _ | b
    · simp only [hb]
    · simp only [hb]
      by_cases ho : b.opened <;> simp [ho]

/-- Helper: a disconnect processed with a null liveSessionPromise only
closes the transport. -/
theorem disc_on_null (v : World) (hv : v.live = none) :
    step v Event.clientDisconnect =
      { v with wsClosed := true, trace := v.trace ++ [Effect.wsClose] } := by
  unfold step
  rw [hv]

/-- C5: the disconnect operation is idempotent: the second of two
consecutive disconnects adds no session.close() call and no error envelope
(a disconnect with the handle already released is a no-op, not an error),
while a disconnect holding a live open backend handle closes it exactly
once. -/
theorem disconnect_idempotent (w : World) :
    closesIn (step (step w Event.clientDisconnect) Event.clientDisconnect).trace
        = closesIn (step w Event.clientDisconnect).trace
      ∧ errorsIn (step (step w Event.clientDisconnect) Event.clientDisconnect).trace
        = errorsIn (step w Event.clientDisconnect).trace
      ∧ ∀ id b, w.live = some id → w.backends[id]? = some b →
          b.opened = true → b.closeCalled = false →
          closesIn (step w Event.clientDisconnect).trace = closesIn w.trace + 1 := by
  refine ⟨?_, ?_, ?_⟩
  · rw [disc_on_null _ (disc_clears_live w)]
    simp [closesIn, List.filter_append]
  · rw [disc_on_null _ (disc_clears_live w)]
    simp [errorsIn, List.filter_append]
  · intro id b h1 h2 h3 h4
    simp only [step, h1, h2, h3, if_true]
    simp [closesIn, List.filter_append]

/-- Concrete state for the idempotence witness: a session holding an open,
not yet closed backend handle. -/
def discWorld : World :=
  ⟨[⟨true, [], false, false⟩], some 0, false, []⟩

/-- Witness for C5 at a concrete session with a live open backend handle:
the first disconnect closes the backend exactly once and the second adds no
further close. -/
theorem disconnect_idempotent_witness :
    closesIn (step (step discWorld Event.clientDisconnect) Event.clientDisconnect).trace
        = closesIn (step discWorld Event.clientDisconnect).trace
      ∧ closesIn (step discWorld Event.clientDisconnect).trace = closesIn discWorld.trace + 1 :=
  ⟨(disconnect_idempotent discWorld).1,
   (disconnect_idempotent discWorld).2.2 0 ⟨true, [], false, false⟩ rfl rfl rfl rfl⟩

/-- C10: a disconnect envelope closes the client transport in every state,
also with a null backend handle: ws.close() runs unconditionally after the
optional backend teardown. -/
theorem disconnect_always_closes_transport (w : World) :
    (step w Event.clientDisconnect).wsClosed = true
      ∧ Effect.wsClose ∈ newEffects w (step w Event.clientDisconnect) := by
  unfold newEffects
  rcases h : w.live with _ | id
  · simp only [step, h]
    simp [List.drop_left]
  · simp only [step, h]
    rcases hb : w.backends[id]? with _ | b
    · simp only [hb]
      simp [List.drop_left]
    · simp only [hb]
      by_cases ho : b.opened <;> simp [ho, List.drop_left]

/-- C3: a connect envelope whose apiKey is absent or empty is rejected in
any state: the handler sends exactly one error envelope and returns before
touching the backend, so the state and every other effect are unchanged. -/
theorem empty_credential_rejected (w : World) (k : Option String) (h : k.getD "" = "") :
    step w (Event.clientConnect k) =
      { w with trace := w.trace ++ [Effect.wsSend (Envelope.error "Missing API key")] } := by
  simp only [step, h, if_true]

/-- Witness for C3: a connect with an absent apiKey on the fresh session
leaves it idle with a single error envelope. -/
theorem empty_credential_rejected_witness :
    (none : Option String).getD "" = ""
      ∧ step init (Event.clientConnect none) =
          { init with trace := init.trace ++ [Effect.wsSend (Envelope.error "Missing API key")] } :=
  ⟨rfl, empty_credential_rejected init none rfl⟩

/-- C2 counterexample: the audio-input gate is the mere presence of
liveSessionPromise, not the active state.  A frame arriving while the
session is still connecting (before the backend open) is queued on the
pending promise and forwarded to the backend when it opens, so a non-active
frame does reach the backend. -/
theorem audio_while_connecting_forwarded :
    Effect.backendSend 0 "frameA" ∈
      (runTrace init
        [Event.clientConnect (some "k"), Event.clientAudio "frameA",
         Event.backendOpen 0]).trace := by
  decide

/-- C2 amended: a frame arriving while the handler holds no backend handle
(idle, or closed after disconnect nulled it) is dropped with zero bytes
forwarded and no state change, while a frame arriving on a still pending
handle is queued (and only forwarded once the backend opens). -/
theorem audio_forwarding_requires_handle (w : World) (f : String) :
    (w.live = none → step w (Event.clientAudio f) = w)
      ∧ ∀ id b, w.live = some id → w.backends[id]? = some b → b.opened = false →
          (step w (Event.clientAudio f)).trace = w.trace
            ∧ (step w (Event.clientAudio f)).backends[id]? =
                some { b with queuedSends := b.queuedSends ++ [f] } := by
  constructor
  · intro h
    simp only [step, h]
  · intro id b h1 h2 h3
    simp only [step, h1, h2, h3]
    refine ⟨rfl, ?_⟩
    exact List.getElem?_set_eq_of_lt _ (List.getElem?_eq_some.mp h2).1

/-- Concrete state for the C2 witness: a session whose backend connect is
still pending. -/
def pendingWorld : World :=
  ⟨[⟨false, [], false, false⟩], some 0, false, []⟩

/-- Witness for C2 amended: a frame sent on the fresh idle session is
dropped outright, and a frame sent while connecting forwards nothing. -/
theorem audio_forwarding_requires_handle_witness :
    step init (Event.clientAudio "x") = init
      ∧ (step pendingWorld (Event.clientAudio "x")).trace = pendingWorld.trace :=
  ⟨(audio_forwarding_requires_handle init "x").1 rfl,
   ((audio_forwarding_requires_handle pendingWorld "x").2 0
      ⟨false, [], false, false⟩ rfl rfl rfl).1⟩

/-- C1: the ws close handler only logs, so a transport close does not
release the backend handle.  After connect, transport close, then the late
backend open, the backend session is open with close() never called on it:
the handle outlives its session and the late open is not closed
immediately. -/
theorem transport_close_leaks_backend :
    (runTrace init
        [Event.clientConnect (some "k"), Event.transportClose,
         Event.backendOpen 0]).wsClosed = true
      ∧ (runTrace init
          [Event.clientConnect (some "k"), Event.transportClose,
           Event.backendOpen 0]).backends =
          [{ opened := true, queuedSends := [], queuedClose := false, closeCalled := false }]
      ∧ closesIn (runTrace init
          [Event.clientConnect (some "k"), Event.transportClose,
           Event.backendOpen 0]).trace = 0 := by
  decide

/-- C4: a second connect overwrites liveSessionPromise without closing the
old session: after connect, backend open, connect again, two backend
handles are live at once and no session.close() was ever issued. -/
theorem reconnect_leaks_old_backend :
    countLive (runTrace init
        [Event.clientConnect (some "k"), Event.backendOpen 0,
         Event.clientConnect (some "k")]).backends = 2
      ∧ closesIn (runTrace init
          [Event.clientConnect (some "k"), Event.backendOpen 0,
           Event.clientConnect (some "k")]).trace = 0 := by
  decide

/-- C7 counterexample: toString is not an own entry of the table, yet the
lookup does not return the default mapping for it: bracket access finds the
truthy toString member inherited from Object.prototype and the falsy-or
default never fires, so the program uses the inherited function, not
Karen. -/
theorem prototype_name_bypasses_default :
    voiceMapOwn "toString" = none
      ∧ resolve "toString" ≠ SystemVoice.voice "Karen"
      ∧ resolve "toString" = SystemVoice.inheritedMember "toString" := by
  decide

/-- C7 amended: voice resolution is total and pure, and every name absent
from the table which is not a property name inherited from Object.prototype
resolves to the defined default Karen; but the inherited property names
(toString, constructor, valueOf, hasOwnProperty, the proto accessor and
the other Object.prototype members) resolve to the truthy inherited member
instead of the default. -/
theorem resolve_default_unless_inherited (v : String) :
    (voiceMapOwn v = none → objectProtoKeys.contains v = false →
        resolve v = SystemVoice.voice "Karen")
      ∧ (voiceMapOwn v = none → objectProtoKeys.contains v = true →
        resolve v = SystemVoice.inheritedMember v) := by
  constructor <;> intro h1 h2 <;> simp only [resolve, h1] <;> rw [h2] <;> simp

/-- Witness for C7 amended: Zephyr (off table, not inherited) resolves to
the default Karen, while valueOf (off table, inherited) resolves to the
inherited member. -/
theorem resolve_default_unless_inherited_witness :
    (voiceMapOwn "Zephyr" = none ∧ objectProtoKeys.contains "Zephyr" = false
        ∧ resolve "Zephyr" = SystemVoice.voice "Karen")
      ∧ (voiceMapOwn "valueOf" = none ∧ objectProtoKeys.contains "valueOf" = true
        ∧ resolve "valueOf" = SystemVoice.inheritedMember "valueOf") :=
  ⟨⟨by decide, by decide,
      (resolve_default_unless_inherited "Zephyr").1 (by decide) (by decide)⟩,
   ⟨by decide, by decide,
      (resolve_default_unless_inherited "valueOf").2 (by decide) (by decide)⟩⟩

/-- C6: after a primary failure the fallback is gated on the fixed host
predicate: on a non-darwin host the handler rethrows the primary failure to
the outer catch, answering 500 with the primary diagnostic and making zero
local attempts; on darwin exactly one local attempt is made. -/
theorem fallback_gated_on_host (env : TtsEnv) (t k m : String) (v : Option String)
    (ht : t ≠ "") (hk : k ≠ "") (hp : env.primary = PrimaryOutcome.fail m) :
    (env.darwin = false →
        generateTts env ⟨some t, v, some k⟩ =
          { status := 500, error := some "Failed to generate TTS"
            details := some (jsErrorString m)
            audioBase64 := none, audioMimeType := none
            primaryAttempted := true, localAttempts := 0, localVoice := none })
      ∧ (env.darwin = true →
          (generateTts env ⟨some t, v, some k⟩).localAttempts = 1) := by
  constructor
  · intro hd
    simp only [generateTts, ht, hk, hp, fallbackAfter, hd]
    simp [ht, hk]
  · intro hd
    simp only [generateTts, hp, fallbackAfter, hd]
    simp only [Option.getD]
    simp [ht, hk]
    cases env.localTts <;> simp

/-- Witness for C6: with text hello, key key and a failing primary, the
non-darwin host answers 500 with the primary diagnostic and no local
attempt, while the darwin host makes exactly one local attempt. -/
theorem fallback_gated_on_host_witness :
    generateTts ⟨false, PrimaryOutcome.fail "netdown", LocalOutcome.ok "zz"⟩
        ⟨some "hello", some "Kore", some "key"⟩ =
        { status := 500, error := some "Failed to generate TTS"
          details := some (jsErrorString "netdown")
          audioBase64 := none, audioMimeType := none
          primaryAttempted := true, localAttempts := 0, localVoice := none }
      ∧ (generateTts ⟨true, PrimaryOutcome.fail "netdown", LocalOutcome.fail "nosay"⟩
          ⟨some "hello", some "Kore", some "key"⟩).localAttempts = 1 :=
  ⟨(fallback_gated_on_host _ "hello" "key" "netdown" (some "Kore")
      (by decide) (by decide) rfl).1 rfl,
   (fallback_gated_on_host _ "hello" "key" "netdown" (some "Kore")
      (by decide) (by decide) rfl).2 rfl⟩

/-- C8: the handler logs text.substring before validating, so a request
with the text field absent reaches the outer catch and answers 500 Failed
to generate TTS instead of 400, still without any primary attempt.  (In the
first src/server.js variant a missing apiKey likewise becomes a 500 from
the createAiClient throw rather than a 400.) -/
theorem missing_text_yields_500 :
    (generateTts ⟨true, PrimaryOutcome.fail "x", LocalOutcome.fail "y"⟩
        ⟨none, some "Puck", some "k"⟩).status = 500
      ∧ (generateTts ⟨true, PrimaryOutcome.fail "x", LocalOutcome.fail "y"⟩
          ⟨none, some "Puck", some "k"⟩).error = some "Failed to generate TTS"
      ∧ (generateTts ⟨true, PrimaryOutcome.fail "x", LocalOutcome.fail "y"⟩
          ⟨none, some "Puck", some "k"⟩).primaryAttempted = false := by
  decide

/-- C9 counterexample: when primary and local both fail, the response
diagnostic is exactly the local rejection and is unchanged when the primary
failure description changes, so it cannot combine the two descriptions. -/
theorem local_failure_diagnostic_ignores_primary :
    generateTts ⟨true, PrimaryOutcome.fail "PRIMARYFAIL", LocalOutcome.fail "LOCALFAIL"⟩
        ⟨some "hello", some "Puck", some "k"⟩ =
      generateTts ⟨true, PrimaryOutcome.fail "OTHERPRIMARYFAIL", LocalOutcome.fail "LOCALFAIL"⟩
        ⟨some "hello", some "Puck", some "k"⟩
      ∧ (generateTts ⟨true, PrimaryOutcome.fail "PRIMARYFAIL", LocalOutcome.fail "LOCALFAIL"⟩
          ⟨some "hello", some "Puck", some "k"⟩).details = some "Error: LOCALFAIL" := by
  decide

/-- C9 amended: when the primary attempt fails, fallback is available and
the single local attempt also fails, the request fails with status 500 and
a diagnostic carrying only the local rejection (the primary failure is
logged to the console but not included in the response). -/
theorem local_failure_reports_local_only (env : TtsEnv) (t k pm lm : String)
    (v : Option String) (ht : t ≠ "") (hk : k ≠ "") (hd : env.darwin = true)
    (hp : env.primary = PrimaryOutcome.fail pm)
    (hl : env.localTts = LocalOutcome.fail lm) :
    (generateTts env ⟨some t, v, some k⟩).status = 500
      ∧ (generateTts env ⟨some t, v, some k⟩).details = some (jsErrorString lm)
      ∧ (generateTts env ⟨some t, v, some k⟩).localAttempts = 1 := by
  simp only [generateTts, hp, fallbackAfter, hd, hl]
  simp [ht, hk]

/-- Witness for C9 amended: with both tiers failing on darwin the response
is a 500 whose details are the local rejection alone. -/
theorem local_failure_reports_local_only_witness :
    (generateTts ⟨true, PrimaryOutcome.fail "netdown", LocalOutcome.fail "nosay"⟩
        ⟨some "hello", some "Puck", some "k"⟩).status = 500
      ∧ (generateTts ⟨true, PrimaryOutcome.fail "netdown", LocalOutcome.fail "nosay"⟩
          ⟨some "hello", some "Puck", some "k"⟩).details = some (jsErrorString "nosay") :=
  ⟨(local_failure_reports_local_only _ "hello" "k" "netdown" "nosay" (some "Puck")
      (by decide) (by decide) rfl rfl rfl).1,
   (local_failure_reports_local_only _ "hello" "k" "netdown" "nosay" (some "Puck")
      (by decide) (by decide) rfl rfl rfl).2.1⟩
